import Mathlib

/-!
# Verification of the coreblock blog backend

A shallow embedding of the controllers of the coreblock backend
(authController, categoryController and the blog CRUD handlers), together
with theorems settling the behavioural claims about session rotation,
referential integrity, slug handling, publication timestamps and category
deletion guards.

The MongoDB collections are embedded as Lean lists of documents (natural
order = insertion order), the Redis value at the single refresh key as an
`Option String`, and each Express handler as a function returning
`Except CustomError` of the updated state.  JavaScript truthiness on
strings (`""` and `undefined`/`null` are falsy) is made explicit.
-/

namespace CoreBlock

/-- `CustomError` from `src/utils/customError.ts`: a message plus HTTP status code. -/
structure CustomError where
  message : String
  statusCode : Nat
deriving DecidableEq, Repr

/-- JavaScript truthiness of a possibly-absent string: `undefined`/`null`
and the empty string are falsy. -/
def jsTruthy : Option String → Bool
  | none => false
  | some s => !(s == "")

/-- `x || d` on a possibly-absent string, as used by `publishedAt || new Date().toISOString()`. -/
def jsOrElse (p : Option String) (d : String) : String :=
  match p with
  | none => d
  | some s => if s = "" then d else s

/-! ## Authentication (`src/controllers/authController.ts`, session part) -/

/-- Fixed ID for the single admin user (`ADMIN_ID = "admin"`). -/
def ADMIN_ID : String := "admin"

/-- Models the environment-configured admin email (`env.ADMIN_EMAIL`). -/
def ADMIN_EMAIL : String := "admin@example.com"

/-- Error thrown by `refresh` and `logout` on a token mismatch (HTTP 401). -/
def invalidRefreshTokenErr : CustomError := ⟨"Invalid refresh token", 401⟩

/-- Modelled from the spec: ValidationError (400) — malformed input shape.
Zod parse failures are mapped by the error middleware, which is not in `src/`. -/
def validationError : CustomError := ⟨"Validation error", 400⟩

/-- Decimal value of a digit list. -/
def digitsToNat (cs : List Char) : Nat :=
  cs.foldl (fun n c => 10 * n + (c.toNat - 48)) 0

/-- Seconds denoted by a jsonwebtoken-style duration string such as
`"15m"` or `"1d"` (digits followed by a unit). -/
def durationSeconds (s : String) : Option Nat :=
  let cs := s.toList
  let digits := cs.takeWhile Char.isDigit
  let unit := cs.dropWhile Char.isDigit
  if digits = [] then none
  else
    let n := digitsToNat digits
    match unit with
    | ['s'] => some n
    | ['m'] => some (n * 60)
    | ['h'] => some (n * 3600)
    | ['d'] => some (n * 86400)
    | _ => none

/-- The `expiresIn` option hard-coded in `generateAccessToken` (`expiresIn: "1d"`). -/
def accessTokenExpiresIn : String := "1d"

/-- The default of the `JWT_EXPIRES_IN` environment variable in the env schema
(`z.string().default("15m")`, commented "Short-lived access token"); it is
never read by the token-generation code. -/
def JWT_EXPIRES_IN_default : String := "15m"

/-- The claims of a signed access token: the signed payload `{id, email}`
plus the `iat`/`exp` timestamps (seconds) that `jwt.sign` attaches. -/
structure AccessToken where
  id : String
  email : String
  iat : Nat
  exp : Nat
deriving DecidableEq, Repr

/-- `generateAccessToken`: signs `{id, email}` with expiry `iat + expiresIn`
where `expiresIn` is the hard-coded `"1d"`. -/
def generateAccessToken (user : String × String) (now : Nat) : AccessToken :=
  { id := user.1
    email := user.2
    iat := now
    exp := now + (durationSeconds accessTokenExpiresIn).getD 0 }

/-- `storeRefreshToken`: `redisClient.set(REFRESH_KEY, token, …)` — the new
value stored at the single refresh key (overwrites unconditionally). -/
def storeRefreshToken (token : String) : Option String := some token

/-- Result of a successful `login`/`refresh`: the new stored session value
together with the token pair returned to the client. -/
structure AuthOk where
  stored : Option String
  accessToken : AccessToken
  refreshToken : String
deriving DecidableEq, Repr

/-- The `refresh` controller.  `stored` is the current Redis value at
`REFRESH_KEY` (`none` = key absent), `presented` the request's
`refreshToken`, `fresh` the value of `uuidv4()` for the new refresh token,
`now` the issue time.  Mirrors: zod `min(1)` parse, then
`if (!storedToken || storedToken !== refreshToken) throw 401`, then
re-issue and overwrite the stored session. -/
def refresh (stored : Option String) (presented fresh : String) (now : Nat) :
    Except CustomError AuthOk :=
  if presented = "" then .error validationError
  else match stored with
    | none => .error invalidRefreshTokenErr
    | some t =>
      if t = "" ∨ t ≠ presented then .error invalidRefreshTokenErr
      else .ok { stored := storeRefreshToken fresh
                 accessToken := generateAccessToken (ADMIN_ID, ADMIN_EMAIL) now
                 refreshToken := fresh }

/-- The `logout` controller: zod `min(1)` parse, then
`if (storedToken && storedToken === refreshToken) del else throw 401`.
Returns the new Redis value on success. -/
def logout (stored : Option String) (presented : String) :
    Except CustomError (Option String) :=
  if presented = "" then .error validationError
  else match stored with
    | none => .error invalidRefreshTokenErr
    | some t =>
      if t ≠ "" ∧ t = presented then .ok none
      else .error invalidRefreshTokenErr

/-! ## Content data model (`src/models/index.ts`) -/

/-- BlogPost status enumeration. -/
inductive Status where
  | draft
  | published
  | archived
deriving DecidableEq, Repr

/-- Author social links. -/
structure Social where
  twitter : Option String
  github : Option String
  linkedin : Option String
  website : Option String
deriving DecidableEq, Repr

/-- Author fields accepted by the create request (`authorSchema`). -/
structure AuthorInput where
  id : String
  name : String
  username : String
  email : Option String
  avatarUrl : Option String
  bio : Option String
  social : Option Social
deriving DecidableEq, Repr

/-- Embedded author snapshot stored on a post: the request author plus the
timestamps `createBlog` attaches. -/
structure Author extends AuthorInput where
  createdAt : String
  updatedAt : String
deriving DecidableEq, Repr

/-- SEO metadata object of a post; every subfield is optional. -/
structure Metadata where
  title : Option String
  description : Option String
  keywords : Option (List String)
  coverImage : Option String
  ogImage : Option String
  canonicalUrl : Option String
  readingTimeMinutes : Option Int
  wordCount : Option Int
  language : Option String
deriving DecidableEq, Repr

/-- The opaque lexical content tree; the controllers only inspect the
top-level type tag (`content.type === "root"`). -/
structure ContentNode where
  nodeType : String
deriving DecidableEq, Repr

/-- A BlogPost document.  `_id` is the Mongo document id (the key used by
`findById` and reference lists); `id` is the additional UUID field the
schema stores. -/
structure BlogPost where
  _id : String
  id : String
  title : String
  slug : String
  excerpt : String
  content : ContentNode
  author : Author
  categories : List String
  tags : List String
  metadata : Option Metadata
  status : Status
  publishedAt : Option String
  createdAt : String
  updatedAt : String
deriving DecidableEq, Repr

/-- A Category document. -/
structure Category where
  _id : String
  name : String
  slug : String
  description : Option String
  parentId : Option String
  createdAt : String
  updatedAt : String
deriving DecidableEq, Repr

/-- A Tag document. -/
structure Tag where
  _id : String
  name : String
  slug : String
  createdAt : String
  updatedAt : String
deriving DecidableEq, Repr

/-- The document store: the three Mongo collections, in natural
(insertion) order. -/
structure Store where
  blogs : List BlogPost
  categories : List Category
  tags : List Tag
deriving DecidableEq, Repr

/-- `mongoose.isValidObjectId`: a 24-character hex string (or a
12-character string). -/
def isValidObjectId (s : String) : Bool :=
  (s.length == 24 && s.toList.all fun c =>
    c.isDigit || ('a' ≤ c && c ≤ 'f') || ('A' ≤ c && c ≤ 'F')) ||
  s.length == 12

/-- `Category.countDocuments({ _id: { $in: ids } })`: the number of stored
category documents whose id occurs in `ids`. -/
def countCategoriesIn (st : Store) (ids : List String) : Nat :=
  (st.categories.filter fun c => ids.contains c._id).length

/-- `Tag.countDocuments({ _id: { $in: ids } })`. -/
def countTagsIn (st : Store) (ids : List String) : Nat :=
  (st.tags.filter fun t => ids.contains t._id).length

/-- Modelled from the spec: the external slug-transform utility
(the `slugify` package with `lower: true, strict: true`, not part of this
repository) — a deterministic lowercase-ASCII-hyphenated transform:
lowercase, spaces to hyphens, all other non-alphanumeric characters
dropped. -/
def slugify (s : String) : String :=
  String.mk ((s.toList.map Char.toLower).filterMap fun c =>
    if c = ' ' then some '-'
    else if c.isAlphanum || c = '-' then some c else none)

/-! ## Blog controller (`src/controllers/…`, blog CRUD part) -/

/-- Error constants thrown by the blog handlers. -/
def duplicateBlogSlugErr : CustomError := ⟨"Blog with this title already exists", 400⟩

/-- `DanglingReference` failure of the category-existence count check. -/
def danglingCategoriesErr : CustomError := ⟨"One or more categories not found", 400⟩

/-- `DanglingReference` failure of the tag-existence count check. -/
def danglingTagsErr : CustomError := ⟨"One or more tags not found", 400⟩

/-- 404 thrown when a blog id or slug does not resolve. -/
def blogNotFoundErr : CustomError := ⟨"Blog not found", 404⟩

/-- The body of a `POST /blogs` request after zod parsing (`blogSchema`);
`status` carries the zod default `draft` when absent. -/
structure CreateBlogReq where
  title : String
  excerpt : String
  content : ContentNode
  author : AuthorInput
  categories : Option (List String)
  tags : Option (List String)
  metadata : Option Metadata
  status : Status
  publishedAt : Option String
deriving DecidableEq, Repr

/-- The zod refinements of `blogSchema` beyond its shape: non-empty title
and excerpt, a `root` content tag, valid ObjectIds in the reference lists,
and the required author fields. -/
def validBlogReq (req : CreateBlogReq) : Bool :=
  !(req.title == "") && !(req.excerpt == "") &&
  req.content.nodeType == "root" &&
  (match req.categories with
    | some cs => cs.all isValidObjectId
    | none => true) &&
  (match req.tags with
    | some ts => ts.all isValidObjectId
    | none => true) &&
  !(req.author.id == "") && !(req.author.name == "") && !(req.author.username == "")

/-- The `if (categories && categories.length > 0)` count check of
`createBlog`: true when it throws. -/
def createCategoriesCheckFails (st : Store) (o : Option (List String)) : Bool :=
  match o with
  | none => false
  | some cs => !(cs.length == 0) && !(countCategoriesIn st cs == cs.length)

/-- The `if (tags && tags.length > 0)` count check of `createBlog`. -/
def createTagsCheckFails (st : Store) (o : Option (List String)) : Bool :=
  match o with
  | none => false
  | some ts => !(ts.length == 0) && !(countTagsIn st ts == ts.length)

/-- The document handed to `BlogPost.create` by `createBlog`: slug derived
from the title, defaults for absent reference lists, author snapshot with
timestamps, and `publishedAt` populated only when created already
published. -/
def mkBlogPost (req : CreateBlogReq) (freshMid freshUid now : String) : BlogPost :=
  { _id := freshMid
    id := freshUid
    title := req.title
    slug := slugify req.title
    excerpt := req.excerpt
    content := req.content
    author := { toAuthorInput := req.author, createdAt := now, updatedAt := now }
    categories := req.categories.getD []
    tags := req.tags.getD []
    metadata := req.metadata
    status := req.status
    publishedAt := if req.status = Status.published
      then some (jsOrElse req.publishedAt now) else none
    createdAt := now
    updatedAt := now }

/-- The `createBlog` controller: zod parse, slug-uniqueness check,
category/tag existence count checks, then insert.  `freshMid`/`freshUid`
model the generated Mongo id and UUID. -/
def createBlog (st : Store) (req : CreateBlogReq) (freshMid freshUid now : String) :
    Except CustomError Store :=
  if !(validBlogReq req) then .error validationError
  else
    let slug := slugify req.title
    match st.blogs.find? fun b => b.slug == slug with
    | some _ => .error duplicateBlogSlugErr
    | none =>
      if createCategoriesCheckFails st req.categories then .error danglingCategoriesErr
      else if createTagsCheckFails st req.tags then .error danglingTagsErr
      else .ok { st with blogs := st.blogs ++ [mkBlogPost req freshMid freshUid now] }

/-- The store the HTTP layer leaves behind after a `createBlog` request:
the new store on success, the old one when the handler threw. -/
def runCreateBlog (st : Store) (req : CreateBlogReq) (freshMid freshUid now : String) :
    Store :=
  match createBlog st req freshMid freshUid now with
  | .ok st' => st'
  | .error _ => st

/-- The body of a `PATCH /blogs/:id` request after zod parsing
(`updateBlogSchema = blogSchema.partial().omit({content, author})`). -/
structure UpdateBlogReq where
  title : Option String
  excerpt : Option String
  categories : Option (List String)
  tags : Option (List String)
  metadata : Option Metadata
  status : Option Status
  publishedAt : Option String
deriving DecidableEq, Repr

/-- The zod refinements of `updateBlogSchema`: present fields obey the same
constraints as in `blogSchema`. -/
def validUpdateBlogReq (r : UpdateBlogReq) : Bool :=
  (match r.title with | some t => !(t == "") | none => true) &&
  (match r.excerpt with | some e => !(e == "") | none => true) &&
  (match r.categories with | some cs => cs.all isValidObjectId | none => true) &&
  (match r.tags with | some ts => ts.all isValidObjectId | none => true)

/-- The `if (categories)` count check of `updateBlog` (runs for any present
list, including the empty one). -/
def updateCategoriesCheckFails (st : Store) (o : Option (List String)) : Bool :=
  match o with
  | none => false
  | some cs => !(countCategoriesIn st cs == cs.length)

/-- The `if (tags)` count check of `updateBlog`. -/
def updateTagsCheckFails (st : Store) (o : Option (List String)) : Bool :=
  match o with
  | none => false
  | some ts => !(countTagsIn st ts == ts.length)

/-- The empty object assigned by `blog.metadata = {}`. -/
def emptyMetadata : Metadata :=
  { title := none, description := none, keywords := none, coverImage := none
    ogImage := none, canonicalUrl := none, readingTimeMinutes := none
    wordCount := none, language := none }

/-- Lines 327–338 of the blog controller: `blog.metadata = {}` followed by
one conditional copy per subfield present in the request. -/
def replaceMetadata (m : Metadata) : Metadata :=
  let r := emptyMetadata
  let r := if m.title.isSome then { r with title := m.title } else r
  let r := if m.description.isSome then { r with description := m.description } else r
  let r := if m.keywords.isSome then { r with keywords := m.keywords } else r
  let r := if m.coverImage.isSome then { r with coverImage := m.coverImage } else r
  let r := if m.ogImage.isSome then { r with ogImage := m.ogImage } else r
  let r := if m.canonicalUrl.isSome then { r with canonicalUrl := m.canonicalUrl } else r
  let r := if m.readingTimeMinutes.isSome then { r with readingTimeMinutes := m.readingTimeMinutes } else r
  let r := if m.wordCount.isSome then { r with wordCount := m.wordCount } else r
  let r := if m.language.isSome then { r with language := m.language } else r
  r

/-- `if (title) { blog.title = title; blog.slug = slugify(title) }`. -/
def updTitle (r : UpdateBlogReq) (b : BlogPost) : BlogPost :=
  match r.title with
  | some t => if t = "" then b else { b with title := t, slug := slugify t }
  | none => b

/-- `if (excerpt) blog.excerpt = excerpt`. -/
def updExcerpt (r : UpdateBlogReq) (b : BlogPost) : BlogPost :=
  match r.excerpt with
  | some e => if e = "" then b else { b with excerpt := e }
  | none => b

/-- `if (categories) { …; blog.categories = categories }` (assignment part). -/
def updCategories (r : UpdateBlogReq) (b : BlogPost) : BlogPost :=
  match r.categories with
  | some cs => { b with categories := cs }
  | none => b

/-- `if (tags) { …; blog.tags = tags }` (assignment part). -/
def updTags (r : UpdateBlogReq) (b : BlogPost) : BlogPost :=
  match r.tags with
  | some ts => { b with tags := ts }
  | none => b

/-- `if (metadata) { blog.metadata = {}; … }`: wholesale replacement. -/
def updMetadata (r : UpdateBlogReq) (b : BlogPost) : BlogPost :=
  match r.metadata with
  | some m => { b with metadata := some (replaceMetadata m) }
  | none => b

/-- `if (status) { blog.status = status; if (status === "published" &&
!blog.publishedAt) blog.publishedAt = publishedAt || now }`. -/
def updStatus (r : UpdateBlogReq) (now : String) (b : BlogPost) : BlogPost :=
  match r.status with
  | some s =>
    if s = Status.published ∧ jsTruthy b.publishedAt = false
    then { b with status := s, publishedAt := some (jsOrElse r.publishedAt now) }
    else { b with status := s }
  | none => b

/-- The field-mutation section of `updateBlog` (its "Update fields" block):
the document as it stands when `blog.save()` runs, given the found blog and
the parsed request; the source's blocks in order, then `updatedAt` is
stamped. -/
def applyBlogUpdate (b : BlogPost) (r : UpdateBlogReq) (now : String) : BlogPost :=
  { updStatus r now (updMetadata r (updTags r (updCategories r (updExcerpt r (updTitle r b)))))
    with updatedAt := now }

/-- The `updateBlog` controller: zod parse, `findById`, category/tag count
checks, field mutation, duplicate-slug check excluding the post itself
(`findOne({slug: blog.slug, _id: {$ne: id}})`, only when a title was
supplied), then save. -/
def updateBlog (st : Store) (i : String) (r : UpdateBlogReq) (now : String) :
    Except CustomError Store :=
  if !(validUpdateBlogReq r) then .error validationError
  else match st.blogs.find? fun b => b._id == i with
    | none => .error blogNotFoundErr
    | some b =>
      if updateCategoriesCheckFails st r.categories then .error danglingCategoriesErr
      else if updateTagsCheckFails st r.tags then .error danglingTagsErr
      else
        let b' := applyBlogUpdate b r now
        if jsTruthy r.title && st.blogs.any fun p => p.slug == b'.slug && !(p._id == i)
        then .error duplicateBlogSlugErr
        else .ok { st with blogs := st.blogs.map fun p => if p._id == i then b' else p }

/-- The public `getBlog` controller:
`findOne({$or: [{_id: isValidObjectId(idOrSlug) ? idOrSlug : null}, {slug: idOrSlug}], status: "published"})`
— the first stored document (natural order) matching id (only when the
identifier is a valid ObjectId; the `null` id branch matches nothing) or
slug, restricted to published posts; 404 when there is none. -/
def getBlog (st : Store) (idOrSlug : String) : Except CustomError BlogPost :=
  match st.blogs.find? fun b =>
      ((isValidObjectId idOrSlug && b._id == idOrSlug) || b.slug == idOrSlug)
      && b.status == Status.published with
  | some b => .ok b
  | none => .error blogNotFoundErr

/-! ## Category controller (`src/controllers/categoryController.ts`) -/

/-- 404 thrown when a category id does not resolve. -/
def categoryNotFoundErr : CustomError := ⟨"Category not found", 404⟩

/-- 400 thrown when a supplied `parentId` does not resolve. -/
def parentNotFoundErr : CustomError := ⟨"Parent category not found", 400⟩

/-- `CategoryInUse` (400): the category is referenced by a blog post. -/
def categoryInUseErr : CustomError := ⟨"Cannot delete category used in blog posts", 400⟩

/-- `CategoryHasChildren` (400): some category has this one as parent. -/
def categoryHasChildrenErr : CustomError := ⟨"Cannot delete category with subcategories", 400⟩

/-- `DuplicateSlug` (400) for categories. -/
def duplicateCategorySlugErr : CustomError := ⟨"Category with this name already exists", 400⟩

/-- Modelled from the spec: `InternalError` (500) — the uncaught exception
thrown by `new mongoose.Types.ObjectId("")` on an empty `parentId`, mapped
generically by the error middleware (which is not in `src/`). -/
def bsonCastErr : CustomError := ⟨"Invalid ObjectId cast", 500⟩

/-- The body of a `PATCH /categories/:id` request after zod parsing. -/
structure UpdateCategoryReq where
  name : Option String
  description : Option String
  parentId : Option String
deriving DecidableEq, Repr

/-- The zod refinements of `updateCategorySchema`: a present name is
non-empty, a present `parentId` is empty or a valid ObjectId. -/
def validUpdateCategoryReq (r : UpdateCategoryReq) : Bool :=
  (match r.name with | some n => !(n == "") | none => true) &&
  (match r.parentId with | some p => p == "" || isValidObjectId p | none => true)

/-- The `updateCategory` controller: zod parse, `findById`, field updates
(name recomputes the slug; `description !== undefined` overwrite; present
`parentId` is checked to resolve — against the whole collection, the
category itself included — and then assigned), duplicate-slug check
excluding itself when a name was supplied, then save. -/
def updateCategory (st : Store) (i : String) (r : UpdateCategoryReq) (now : String) :
    Except CustomError Store :=
  if !(validUpdateCategoryReq r) then .error validationError
  else match st.categories.find? fun c => c._id == i with
    | none => .error categoryNotFoundErr
    | some c =>
      let c1 := match r.name with
        | some n => if n = "" then c else { c with name := n, slug := slugify n }
        | none => c
      let c2 := match r.description with
        | some d => { c1 with description := some d }
        | none => c1
      let step : Except CustomError Category :=
        match r.parentId with
        | none => .ok c2
        | some p =>
          if p = "" then .error bsonCastErr
          else match st.categories.find? fun k => k._id == p with
            | none => .error parentNotFoundErr
            | some _ => .ok { c2 with parentId := some p }
      match step with
      | .error e => .error e
      | .ok c3 =>
        let c4 := { c3 with updatedAt := now }
        if jsTruthy r.name && st.categories.any fun k => k.slug == c4.slug && !(k._id == i)
        then .error duplicateCategorySlugErr
        else .ok { st with categories := st.categories.map fun k => if k._id == i then c4 else k }

/-- The `deleteCategory` controller: `findById`, then the two dependency
guards — `BlogPost.countDocuments({categories: id})` and
`Category.countDocuments({parentId: id})` — then `deleteOne`. -/
def deleteCategory (st : Store) (i : String) : Except CustomError Store :=
  match st.categories.find? fun c => c._id == i with
  | none => .error categoryNotFoundErr
  | some _ =>
    if (st.blogs.filter fun b => b.categories.contains i).length > 0
    then .error categoryInUseErr
    else if (st.categories.filter fun k => k.parentId == some i).length > 0
    then .error categoryHasChildrenErr
    else .ok { st with categories := st.categories.eraseP fun k => k._id == i }

/-! ## Concrete sample data for witness evaluations -/

/-- A valid 24-hex-character ObjectId. -/
def oidA : String := "aaaaaaaaaaaaaaaaaaaaaaaa"

/-- A second distinct ObjectId. -/
def oidB : String := "bbbbbbbbbbbbbbbbbbbbbbbb"

/-- A third distinct ObjectId. -/
def oidC : String := "cccccccccccccccccccccccc"

/-- A root content document. -/
def sampleContent : ContentNode := ⟨"root"⟩

/-- A minimal valid request author. -/
def sampleAuthorInput : AuthorInput :=
  { id := "a1", name := "Ada", username := "ada"
    email := none, avatarUrl := none, bio := none, social := none }

/-- The stored author snapshot of the sample author. -/
def sampleAuthor : Author :=
  { toAuthorInput := sampleAuthorInput, createdAt := "t0", updatedAt := "t0" }

/-- A category document with the given id. -/
def sampleCategory (i : String) : Category :=
  { _id := i, name := "Tech", slug := "tech", description := none
    parentId := none, createdAt := "t0", updatedAt := "t0" }

/-- A blog post document with the given id, slug and status. -/
def samplePost (i slug : String) (s : Status) : BlogPost :=
  { _id := i, id := "u-" ++ i, title := "T", slug := slug, excerpt := "e"
    content := sampleContent, author := sampleAuthor
    categories := [], tags := [], metadata := none, status := s
    publishedAt := if s = Status.published then some "2024-01-01" else none
    createdAt := "t0", updatedAt := "t0" }

/-- A minimal valid blog-creation request. -/
def sampleBlogReq : CreateBlogReq :=
  { title := "Hello World", excerpt := "e", content := sampleContent
    author := sampleAuthorInput, categories := none, tags := none
    metadata := none, status := Status.draft, publishedAt := none }

/-- A category referenced as parent by another category. -/
def c5ChildCat : Category := { sampleCategory oidB with parentId := some oidA }

/-- Store for the C5 witness: `oidA` with a child, no blog posts. -/
def c5Store : Store := ⟨[], [sampleCategory oidA, c5ChildCat], []⟩

/-- Store for the C10 witness: one ordinary category. -/
def c10Store : Store := ⟨[], [sampleCategory oidA], []⟩

/-- Store for the C10 witness after self-parenting. -/
def c10StoreSelf : Store := ⟨[], [{ sampleCategory oidA with parentId := some oidA }], []⟩

/-- A published post whose slug is the hex string `oidA` (a slug may look
exactly like an ObjectId); its own id is `oidB`. -/
def c8PostA : BlogPost := { samplePost oidB oidA Status.published with title := "A" }

/-- A published post whose id is `oidA`. -/
def c8PostB : BlogPost := { samplePost oidA "b-post" Status.published with title := "B" }

/-- Store for the C8 counterexample: the slug-matching post is stored
before the id-matching one. -/
def c8Store : Store := ⟨[c8PostA, c8PostB], [], []⟩

/-- Store for the C6 witness: two draft posts with slugs `hello` and
`world`. -/
def c6Store : Store :=
  ⟨[samplePost oidA "hello" Status.draft, samplePost oidB "world" Status.draft], [], []⟩

/-- Store for the C3 witness: a single category `oidA`. -/
def c3Store : Store := ⟨[], [sampleCategory oidA], []⟩

/-- Create request for the C3 witness: references the absent category
`oidB`. -/
def c3Req : CreateBlogReq := { sampleBlogReq with categories := some [oidB] }

end CoreBlock

deriving instance DecidableEq for Except

namespace CoreBlock

/-- C1: refresh rotation is single-use — a rotation succeeds only when the
presented token equals the currently stored session token; on success the
stored session becomes the freshly generated token, and rotating again with
the superseded token (the fresh token being distinct, as a fresh UUID is)
fails with `InvalidRefreshToken` (401). -/
theorem c1_refresh_single_use (stored : Option String) (presented f1 f2 : String)
    (now now2 : Nat) (hfresh : f1 ≠ presented) :
    (∀ r : AuthOk, refresh stored presented f1 now = .ok r →
        stored = some presented ∧ r.stored = some f1 ∧ r.refreshToken = f1) ∧
    (∀ r : AuthOk, refresh stored presented f1 now = .ok r →
        refresh r.stored presented f2 now2 = .error invalidRefreshTokenErr) := by
  have key : ∀ r : AuthOk, refresh stored presented f1 now = .ok r →
      stored = some presented ∧ presented ≠ "" ∧
        r.stored = some f1 ∧ r.refreshToken = f1 := by
    intro r h
    by_cases hp : presented = ""
    · simp [refresh, hp] at h
    · cases stored with
      | none => simp [refresh, hp] at h
      | some t =>
        by_cases ht : t = "" ∨ t ≠ presented
        · simp [refresh, hp, ht] at h
        · obtain ⟨-, ht2⟩ := not_or.mp ht
          have hte : t = presented := not_not.mp ht2
          simp only [refresh, if_neg hp, if_neg ht, Except.ok.injEq] at h
          refine ⟨by rw [hte], hp, ?_, ?_⟩ <;>
            simp [← h, storeRefreshToken]
  refine ⟨fun r h => ⟨(key r h).1, (key r h).2.2.1, (key r h).2.2.2⟩, fun r h => ?_⟩
  obtain ⟨-, hp, hr, -⟩ := key r h
  rw [hr]
  simp only [refresh, if_neg hp]
  exact if_pos (Or.inr hfresh)

/-- Witness for C1 at a concrete state: after rotating `"t"` into `"u"`,
presenting `"t"` again is rejected. -/
theorem c1_refresh_single_use_witness :
    refresh (some "u") "t" "v" 1 = .error invalidRefreshTokenErr :=
  (c1_refresh_single_use (some "t") "t" "u" "v" 0 1 (by decide)).2
    { stored := some "u"
      accessToken := generateAccessToken (ADMIN_ID, ADMIN_EMAIL) 0
      refreshToken := "u" }
    (by decide)

/-- C2: logout fails with `InvalidRefreshToken` (401) whenever the presented
refresh token does not match the stored session (including when no session
is stored) — it is an error, not a no-op; on a match the session record is
deleted, and a subsequent rotation with that token also fails with
`InvalidRefreshToken`. -/
theorem c2_logout_guard (stored : Option String) (presented : String)
    (hp : presented ≠ "") :
    (stored ≠ some presented → logout stored presented = .error invalidRefreshTokenErr) ∧
    (stored = some presented →
      logout stored presented = .ok none ∧
      ∀ f now, refresh none presented f now = .error invalidRefreshTokenErr) := by
  constructor
  · intro hne
    cases stored with
    | none => simp [logout, hp]
    | some t =>
      have ht : ¬ (t ≠ "" ∧ t = presented) := by
        intro hc
        exact hne (by rw [hc.2])
      simp [logout, hp, ht]
  · intro hm
    subst hm
    refine ⟨by simp [logout, hp], fun f now => by simp [refresh, hp]⟩

/-- Witness for C2 at a concrete state: a non-matching logout errors, a
matching one deletes the session and blocks later rotation. -/
theorem c2_logout_guard_witness :
    logout (some "t") "x" = .error invalidRefreshTokenErr ∧
    (logout (some "x") "x" = .ok none ∧
      refresh none "x" "f" 5 = .error invalidRefreshTokenErr) :=
  ⟨(c2_logout_guard (some "t") "x" (by decide)).1 (by decide),
    ((c2_logout_guard (some "x") "x" (by decide)).2 rfl).1,
    ((c2_logout_guard (some "x") "x" (by decide)).2 rfl).2 "f" 5⟩

/-! ### Frame lemmas for the update-field blocks -/

/-- Copying each present subfield into a fresh empty object reproduces the
request's metadata object exactly. -/
theorem replaceMetadata_eq (m : Metadata) : replaceMetadata m = m := by
  obtain ⟨t, d, k, ci, oi, cu, rt, wc, lg⟩ := m
  unfold replaceMetadata emptyMetadata
  cases t <;> cases d <;> cases k <;> cases ci <;> cases oi <;> cases cu <;>
    cases rt <;> cases wc <;> cases lg <;> rfl

@[simp] theorem updTitle_metadata (r : UpdateBlogReq) (b : BlogPost) :
    (updTitle r b).metadata = b.metadata := by
  unfold updTitle
  cases r.title with
  | none => rfl
  | some t => by_cases h : t = "" <;> simp [h]

@[simp] theorem updTitle_publishedAt (r : UpdateBlogReq) (b : BlogPost) :
    (updTitle r b).publishedAt = b.publishedAt := by
  unfold updTitle
  cases r.title with
  | none => rfl
  | some t => by_cases h : t = "" <;> simp [h]

@[simp] theorem updExcerpt_title (r : UpdateBlogReq) (b : BlogPost) :
    (updExcerpt r b).title = b.title := by
  unfold updExcerpt
  cases r.excerpt with
  | none => rfl
  | some e => by_cases h : e = "" <;> simp [h]

@[simp] theorem updExcerpt_slug (r : UpdateBlogReq) (b : BlogPost) :
    (updExcerpt r b).slug = b.slug := by
  unfold updExcerpt
  cases r.excerpt with
  | none => rfl
  | some e => by_cases h : e = "" <;> simp [h]

@[simp] theorem updExcerpt_metadata (r : UpdateBlogReq) (b : BlogPost) :
    (updExcerpt r b).metadata = b.metadata := by
  unfold updExcerpt
  cases r.excerpt with
  | none => rfl
  | some e => by_cases h : e = "" <;> simp [h]

@[simp] theorem updExcerpt_publishedAt (r : UpdateBlogReq) (b : BlogPost) :
    (updExcerpt r b).publishedAt = b.publishedAt := by
  unfold updExcerpt
  cases r.excerpt with
  | none => rfl
  | some e => by_cases h : e = "" <;> simp [h]

@[simp] theorem updCategories_title (r : UpdateBlogReq) (b : BlogPost) :
    (updCategories r b).title = b.title := by
  unfold updCategories
  cases r.categories <;> rfl

@[simp] theorem updCategories_slug (r : UpdateBlogReq) (b : BlogPost) :
    (updCategories r b).slug = b.slug := by
  unfold updCategories
  cases r.categories <;> rfl

@[simp] theorem updCategories_metadata (r : UpdateBlogReq) (b : BlogPost) :
    (updCategories r b).metadata = b.metadata := by
  unfold updCategories
  cases r.categories <;> rfl

@[simp] theorem updCategories_publishedAt (r : UpdateBlogReq) (b : BlogPost) :
    (updCategories r b).publishedAt = b.publishedAt := by
  unfold updCategories
  cases r.categories <;> rfl

@[simp] theorem updTags_title (r : UpdateBlogReq) (b : BlogPost) :
    (updTags r b).title = b.title := by
  unfold updTags
  cases r.tags <;> rfl

@[simp] theorem updTags_slug (r : UpdateBlogReq) (b : BlogPost) :
    (updTags r b).slug = b.slug := by
  unfold updTags
  cases r.tags <;> rfl

@[simp] theorem updTags_metadata (r : UpdateBlogReq) (b : BlogPost) :
    (updTags r b).metadata = b.metadata := by
  unfold updTags
  cases r.tags <;> rfl

@[simp] theorem updTags_publishedAt (r : UpdateBlogReq) (b : BlogPost) :
    (updTags r b).publishedAt = b.publishedAt := by
  unfold updTags
  cases r.tags <;> rfl

@[simp] theorem updMetadata_title (r : UpdateBlogReq) (b : BlogPost) :
    (updMetadata r b).title = b.title := by
  unfold updMetadata
  cases r.metadata <;> rfl

@[simp] theorem updMetadata_slug (r : UpdateBlogReq) (b : BlogPost) :
    (updMetadata r b).slug = b.slug := by
  unfold updMetadata
  cases r.metadata <;> rfl

@[simp] theorem updMetadata_publishedAt (r : UpdateBlogReq) (b : BlogPost) :
    (updMetadata r b).publishedAt = b.publishedAt := by
  unfold updMetadata
  cases r.metadata <;> rfl

@[simp] theorem updStatus_title (r : UpdateBlogReq) (now : String) (b : BlogPost) :
    (updStatus r now b).title = b.title := by
  cases hr : r.status with
  | none => simp [updStatus, hr]
  | some s =>
    by_cases h : s = Status.published ∧ jsTruthy b.publishedAt = false <;>
      simp [updStatus, hr, h]

@[simp] theorem updStatus_slug (r : UpdateBlogReq) (now : String) (b : BlogPost) :
    (updStatus r now b).slug = b.slug := by
  cases hr : r.status with
  | none => simp [updStatus, hr]
  | some s =>
    by_cases h : s = Status.published ∧ jsTruthy b.publishedAt = false <;>
      simp [updStatus, hr, h]

@[simp] theorem updStatus_metadata (r : UpdateBlogReq) (now : String) (b : BlogPost) :
    (updStatus r now b).metadata = b.metadata := by
  cases hr : r.status with
  | none => simp [updStatus, hr]
  | some s =>
    by_cases h : s = Status.published ∧ jsTruthy b.publishedAt = false <;>
      simp [updStatus, hr, h]

/-- A truthy stored `publishedAt` is never overwritten by the status block. -/
theorem updStatus_publishedAt_truthy (r : UpdateBlogReq) (now : String) (b : BlogPost)
    (h : jsTruthy b.publishedAt = true) :
    (updStatus r now b).publishedAt = b.publishedAt := by
  cases hr : r.status with
  | none => simp [updStatus, hr]
  | some s =>
    have hneg : ¬ (s = Status.published ∧ jsTruthy b.publishedAt = false) := by
      intro hc
      rw [h] at hc
      exact absurd hc.2 (by simp)
    simp [updStatus, hr, hneg]

/-- First transition into `published` populates `publishedAt`. -/
theorem updStatus_publishedAt_pub (r : UpdateBlogReq) (now : String) (b : BlogPost)
    (h : jsTruthy b.publishedAt = false) (hs : r.status = some Status.published) :
    (updStatus r now b).publishedAt = some (jsOrElse r.publishedAt now) := by
  simp [updStatus, hs, h]

/-- A status block that does not publish leaves `publishedAt` alone. -/
theorem updStatus_publishedAt_notpub (r : UpdateBlogReq) (now : String) (b : BlogPost)
    (hs : ∀ s, r.status = some s → s ≠ Status.published) :
    (updStatus r now b).publishedAt = b.publishedAt := by
  cases hr : r.status with
  | none => simp [updStatus, hr]
  | some s =>
    have hneg : ¬ (s = Status.published ∧ jsTruthy b.publishedAt = false) :=
      fun hc => hs s hr hc.1
    simp [updStatus, hr, hneg]

/-- The mutation blocks that precede the status block do not touch `publishedAt`. -/
theorem preStatus_publishedAt (r : UpdateBlogReq) (b : BlogPost) :
    (updMetadata r (updTags r (updCategories r (updExcerpt r (updTitle r b))))).publishedAt
      = b.publishedAt := by
  simp

/-- C7 (evaluation at the failing configuration): every access token's
expiry is issuance time plus the hard-coded `"1d"` = 86400 seconds, not
issuance plus the configured `JWT_EXPIRES_IN` policy value, whose default
`"15m"` denotes 900 seconds — the policy value is dead configuration. -/
theorem c7_access_lifetime_hardcoded :
    (generateAccessToken (ADMIN_ID, ADMIN_EMAIL) 0).exp = 86400 ∧
    durationSeconds JWT_EXPIRES_IN_default = some 900 ∧
    (generateAccessToken (ADMIN_ID, ADMIN_EMAIL) 0).exp ≠
      0 + (durationSeconds JWT_EXPIRES_IN_default).getD 0 := by
  refine ⟨by decide, by decide, by decide⟩

/-- C4: `publishedAt` is assigned exactly once — on the first transition
into `published` status (or at creation, when created already published) —
and no later status transition changes or clears it: a truthy stored value
survives any single update and in particular the
`published → archived → published` sequence; when it is unset, it is
populated exactly by an update that publishes and left untouched by one
that does not. -/
theorem c4_publishedAt_once (b : BlogPost) (r r1 r2 : UpdateBlogReq)
    (req : CreateBlogReq) (mid uid now now1 now2 : String) :
    (∀ s, b.publishedAt = some s → s ≠ "" →
        (applyBlogUpdate b r now).publishedAt = some s) ∧
    (jsTruthy b.publishedAt = false → r.status = some Status.published →
        (applyBlogUpdate b r now).publishedAt = some (jsOrElse r.publishedAt now)) ∧
    (jsTruthy b.publishedAt = false →
      (∀ s0, r.status = some s0 → s0 ≠ Status.published) →
        (applyBlogUpdate b r now).publishedAt = b.publishedAt) ∧
    (∀ s, b.publishedAt = some s → s ≠ "" →
        (applyBlogUpdate (applyBlogUpdate b r1 now1) r2 now2).publishedAt = some s) ∧
    ((mkBlogPost req mid uid now).publishedAt =
      if req.status = Status.published then some (jsOrElse req.publishedAt now)
      else none) := by
  have key : ∀ (b' : BlogPost) (r' : UpdateBlogReq) (n' : String) (s : String),
      b'.publishedAt = some s → s ≠ "" →
        (applyBlogUpdate b' r' n').publishedAt = some s := by
    intro b' r' n' s hs hne
    show (updStatus r' n' (updMetadata r' (updTags r' (updCategories r'
        (updExcerpt r' (updTitle r' b')))))).publishedAt = some s
    rw [updStatus_publishedAt_truthy _ _ _
      (by rw [preStatus_publishedAt, hs]; simp [jsTruthy, hne])]
    rw [preStatus_publishedAt, hs]
  refine ⟨fun s hs hne => key b r now s hs hne, ?_, ?_, ?_, rfl⟩
  · intro hfalse hpub
    show (updStatus r now (updMetadata r (updTags r (updCategories r
        (updExcerpt r (updTitle r b)))))).publishedAt = some (jsOrElse r.publishedAt now)
    rw [updStatus_publishedAt_pub _ _ _ (by rw [preStatus_publishedAt]; exact hfalse) hpub]
  · intro hfalse hnot
    show (updStatus r now (updMetadata r (updTags r (updCategories r
        (updExcerpt r (updTitle r b)))))).publishedAt = b.publishedAt
    rw [updStatus_publishedAt_notpub _ _ _ hnot, preStatus_publishedAt]
  · intro s hs hne
    have h1 := key b r1 now1 s hs hne
    exact key _ r2 now2 s h1 hne

/-- Witness for C4: a published post keeps its original `publishedAt`
through an `archived` update followed by a `published` update. -/
theorem c4_publishedAt_once_witness :
    (applyBlogUpdate
      (applyBlogUpdate (samplePost oidA "t" Status.published)
        { title := none, excerpt := none, categories := none, tags := none
          metadata := none, status := some Status.archived, publishedAt := none }
        "n1")
      { title := none, excerpt := none, categories := none, tags := none
        metadata := none, status := some Status.published, publishedAt := none }
      "n2").publishedAt = some "2024-01-01" :=
  (c4_publishedAt_once (samplePost oidA "t" Status.published)
    { title := none, excerpt := none, categories := none, tags := none
      metadata := none, status := none, publishedAt := none }
    { title := none, excerpt := none, categories := none, tags := none
      metadata := none, status := some Status.archived, publishedAt := none }
    { title := none, excerpt := none, categories := none, tags := none
      metadata := none, status := some Status.published, publishedAt := none }
    sampleBlogReq "m" "u" "n0" "n1" "n2").2.2.2.1 "2024-01-01" (by decide) (by decide)

/-- C9: when an update supplies a metadata object, the stored metadata is
replaced wholesale by exactly the supplied object — subfields absent from
the request end up absent, whatever the post stored before. -/
theorem c9_metadata_wholesale (b : BlogPost) (r : UpdateBlogReq) (now : String)
    (m : Metadata) (hm : r.metadata = some m) :
    (applyBlogUpdate b r now).metadata = some m := by
  show (updStatus r now (updMetadata r (updTags r (updCategories r
      (updExcerpt r (updTitle r b)))))).metadata = some m
  rw [updStatus_metadata]
  simp [updMetadata, hm, replaceMetadata_eq]

/-- Witness for C9: a post whose stored metadata has `title` and
`description` set, updated with a metadata object carrying only `title`,
ends up with no `description`. -/
theorem c9_metadata_wholesale_witness :
    (applyBlogUpdate
      { samplePost oidA "s" Status.draft with
          metadata := some { emptyMetadata with
            title := some "Old", description := some "OldDesc" } }
      { title := none, excerpt := none, categories := none, tags := none
        metadata := some { emptyMetadata with title := some "New" }
        status := none, publishedAt := none }
      "n").metadata = some { emptyMetadata with title := some "New" } :=
  c9_metadata_wholesale _ _ "n" _ rfl

/-- A `countDocuments`-style positivity criterion: a filtered collection is
non-empty exactly when some stored document satisfies the predicate. -/
theorem filter_length_pos_iff {α : Type} (l : List α) (p : α → Bool) :
    0 < (l.filter p).length ↔ ∃ x ∈ l, p x = true := by
  rw [List.length_pos_iff_ne_nil, Ne, List.filter_eq_nil_iff]
  push_neg
  simp

/-- C5: deleting an existing category fails with `CategoryInUse` (400) when
some blog post references it, fails with `CategoryHasChildren` (400) when
no post references it but some category has it as parent, and deletes the
category only when neither dependent exists. -/
theorem c5_deleteCategory_guards (st : Store) (i : String) (c : Category)
    (hc : st.categories.find? (fun k => k._id == i) = some c) :
    ((∃ b ∈ st.blogs, i ∈ b.categories) →
        deleteCategory st i = .error categoryInUseErr) ∧
    ((∀ b ∈ st.blogs, i ∉ b.categories) →
      (∃ k ∈ st.categories, k.parentId = some i) →
        deleteCategory st i = .error categoryHasChildrenErr) ∧
    ((∀ b ∈ st.blogs, i ∉ b.categories) →
      (∀ k ∈ st.categories, k.parentId ≠ some i) →
        deleteCategory st i =
          .ok { st with categories := st.categories.eraseP fun k => k._id == i }) := by
  have toBlog : ∀ b : BlogPost, i ∈ b.categories → b.categories.contains i = true := by
    intro b hb
    simpa using hb
  refine ⟨?_, ?_, ?_⟩
  · intro hex
    obtain ⟨b, hb, hbc⟩ := hex
    have hpos : 0 < (st.blogs.filter fun b => b.categories.contains i).length :=
      (filter_length_pos_iff _ _).2 ⟨b, hb, toBlog b hbc⟩
    simp only [deleteCategory, hc]
    rw [if_pos hpos]
  · intro hno hch
    have hblog : ¬ 0 < (st.blogs.filter fun b => b.categories.contains i).length := by
      intro hpos
      obtain ⟨b, hb, hbc⟩ := (filter_length_pos_iff _ _).1 hpos
      exact hno b hb (by simpa using hbc)
    obtain ⟨k, hk, hkp⟩ := hch
    have hpos : 0 < (st.categories.filter fun k => k.parentId == some i).length :=
      (filter_length_pos_iff _ _).2 ⟨k, hk, by simp [hkp]⟩
    simp only [deleteCategory, hc]
    rw [if_neg hblog, if_pos hpos]
  · intro hno hnp
    have hblog : ¬ 0 < (st.blogs.filter fun b => b.categories.contains i).length := by
      intro hpos
      obtain ⟨b, hb, hbc⟩ := (filter_length_pos_iff _ _).1 hpos
      exact hno b hb (by simpa using hbc)
    have hchild : ¬ 0 < (st.categories.filter fun k => k.parentId == some i).length := by
      intro hpos
      obtain ⟨k, hk, hkp⟩ := (filter_length_pos_iff _ _).1 hpos
      exact hnp k hk (by simpa using hkp)
    simp only [deleteCategory, hc]
    rw [if_neg hblog, if_neg hchild]

/-- Witness for C5: deleting a category that has a child category fails
with `CategoryHasChildren`. -/
theorem c5_deleteCategory_guards_witness :
    deleteCategory c5Store oidA = .error categoryHasChildrenErr :=
  (c5_deleteCategory_guards c5Store oidA (sampleCategory oidA) (by decide)).2.1
    (by simp [c5Store]) (by decide)

/-- C10: updating a category may set its `parentId` to its own id (the
parent-existence lookup resolves the category itself), and any category
that is its own parent can never be deleted: every delete fails, and when
no blog post references it the failure is `CategoryHasChildren`, because
the child count includes the category itself. -/
theorem c10_self_parent (st : Store) (i now : String) (c : Category)
    (hi : isValidObjectId i = true)
    (hc : st.categories.find? (fun k => k._id == i) = some c) :
    (updateCategory st i ⟨none, none, some i⟩ now =
        .ok { st with categories := st.categories.map fun k =>
          if k._id == i then { c with parentId := some i, updatedAt := now } else k }) ∧
    (∀ st2 c2, st2.categories.find? (fun k => k._id == i) = some c2 →
      c2.parentId = some i →
        (∃ e, deleteCategory st2 i = .error e) ∧
        ((∀ b ∈ st2.blogs, i ∉ b.categories) →
          deleteCategory st2 i = .error categoryHasChildrenErr)) := by
  constructor
  · have hie : ¬ i = "" := by
      intro h
      rw [h] at hi
      exact absurd hi (by decide)
    have hv : validUpdateCategoryReq ⟨none, none, some i⟩ = true := by
      simp [validUpdateCategoryReq, hi]
    simp [updateCategory, hv, hc, hie, jsTruthy]
  · intro st2 c2 h2 hp
    have hmem : c2 ∈ st2.categories := List.mem_of_find?_eq_some h2
    have hchild : 0 < (st2.categories.filter fun k => k.parentId == some i).length :=
      (filter_length_pos_iff _ _).2 ⟨c2, hmem, by simp [hp]⟩
    constructor
    · by_cases hblog : 0 < (st2.blogs.filter fun b => b.categories.contains i).length
      · exact ⟨categoryInUseErr, by
          simp only [deleteCategory, h2]
          rw [if_pos hblog]⟩
      · exact ⟨categoryHasChildrenErr, by
          simp only [deleteCategory, h2]
          rw [if_neg hblog, if_pos hchild]⟩
    · intro hno
      have hblog : ¬ 0 < (st2.blogs.filter fun b => b.categories.contains i).length := by
        intro hpos
        obtain ⟨b, hb, hbc⟩ := (filter_length_pos_iff _ _).1 hpos
        exact hno b hb (by simpa using hbc)
      simp only [deleteCategory, h2]
      rw [if_neg hblog, if_pos hchild]

/-- Witness for C10: self-parenting update succeeds; deleting the
self-parented category fails with `CategoryHasChildren`. -/
theorem c10_self_parent_witness :
    updateCategory c10Store oidA ⟨none, none, some oidA⟩ "n1" =
      .ok { c10Store with categories := c10Store.categories.map fun k =>
        if k._id == oidA
        then { sampleCategory oidA with parentId := some oidA, updatedAt := "n1" }
        else k } ∧
    deleteCategory c10StoreSelf oidA = .error categoryHasChildrenErr := by
  have h := c10_self_parent c10Store oidA "n1" (sampleCategory oidA) (by decide) (by decide)
  exact ⟨h.1, (h.2 c10StoreSelf { sampleCategory oidA with parentId := some oidA }
    (by decide) rfl).2 (by simp [c10StoreSelf])⟩

end CoreBlock

namespace CoreBlock

/-- C8 counterexample: the claim "tries the identifier as an id first and
falls back to slug match" fails — for the identifier `oidA`, a valid
ObjectId carried by the published post `c8PostB` as id, `getBlog` returns
the earlier-stored post `c8PostA`, which matches by slug only. -/
theorem c8_counterexample :
    isValidObjectId oidA = true ∧
    c8PostB ∈ c8Store.blogs ∧ c8PostB._id = oidA ∧
    c8PostB.status = Status.published ∧
    getBlog c8Store oidA = .ok c8PostA ∧
    c8PostA._id ≠ oidA := by decide

/-- C8 (amended): public get-by-id-or-slug matches the identifier against
post id (only when it is a valid ObjectId — otherwise the id branch
matches nothing) or against slug, with no precedence between the two keys
(the first stored match wins); it returns only published posts and fails
with `NotFound` (404) when no published post matches by either key. -/
theorem c8_get_published_match (st : Store) (q : String) :
    (∀ b, getBlog st q = .ok b →
        b ∈ st.blogs ∧ b.status = Status.published ∧
          ((isValidObjectId q = true ∧ b._id = q) ∨ b.slug = q)) ∧
    ((∀ b ∈ st.blogs, b.status = Status.published →
        ¬ (isValidObjectId q = true ∧ b._id = q) ∧ b.slug ≠ q) →
      getBlog st q = .error blogNotFoundErr) := by
  constructor
  · intro b hb
    unfold getBlog at hb
    cases hf : st.blogs.find? fun p =>
        ((isValidObjectId q && p._id == q) || p.slug == q)
        && p.status == Status.published with
    | none => rw [hf] at hb; simp at hb
    | some b0 =>
      rw [hf] at hb
      have hpred := List.find?_some hf
      have hmem := List.mem_of_find?_eq_some hf
      have hb0 : b0 = b := by
        injection hb
      subst hb0
      simp only [Bool.and_eq_true, Bool.or_eq_true, beq_iff_eq] at hpred
      exact ⟨hmem, hpred.2, hpred.1⟩
  · intro hnone
    unfold getBlog
    have hfnone : (st.blogs.find? fun p =>
        ((isValidObjectId q && p._id == q) || p.slug == q)
        && p.status == Status.published) = none := by
      rw [List.find?_eq_none]
      intro p hp hpred
      simp only [Bool.and_eq_true, Bool.or_eq_true, beq_iff_eq] at hpred
      obtain ⟨hni, hns⟩ := hnone p hp hpred.2
      cases hpred.1 with
      | inl h => exact hni h
      | inr h => exact hns h
    rw [hfnone]

/-- Witness for the amended C8: an empty store yields `NotFound`. -/
theorem c8_get_published_match_witness :
    getBlog ⟨[], [], []⟩ "nope" = .error blogNotFoundErr :=
  (c8_get_published_match ⟨[], [], []⟩ "nope").2 (by simp)

end CoreBlock

namespace CoreBlock

/-- C6: a partial update that omits `title` leaves both title and slug
unchanged (and saves without any duplicate-slug check); an update that
includes a title recomputes the slug from the new title and fails with
`DuplicateSlug` (400) exactly when some other post — the updated post
itself excluded — already has that slug. -/
theorem c6_title_slug (st : Store) (i now : String) (r : UpdateBlogReq) (b : BlogPost)
    (hv : validUpdateBlogReq r = true)
    (hb : st.blogs.find? (fun p => p._id == i) = some b)
    (hcat : updateCategoriesCheckFails st r.categories = false)
    (htag : updateTagsCheckFails st r.tags = false) :
    (r.title = none →
        (applyBlogUpdate b r now).title = b.title ∧
        (applyBlogUpdate b r now).slug = b.slug ∧
        updateBlog st i r now =
          .ok { st with blogs := st.blogs.map fun p =>
            if p._id == i then applyBlogUpdate b r now else p }) ∧
    (∀ t, r.title = some t → t ≠ "" →
        (applyBlogUpdate b r now).slug = slugify t) ∧
    (∀ t, r.title = some t → t ≠ "" →
      (∃ p ∈ st.blogs, p._id ≠ i ∧ p.slug = slugify t) →
        updateBlog st i r now = .error duplicateBlogSlugErr) ∧
    (∀ t, r.title = some t → t ≠ "" →
      (∀ p ∈ st.blogs, p.slug = slugify t → p._id = i) →
        updateBlog st i r now =
          .ok { st with blogs := st.blogs.map fun p =>
            if p._id == i then applyBlogUpdate b r now else p }) := by
  have hstep : updateBlog st i r now =
      (if jsTruthy r.title && st.blogs.any (fun p =>
            p.slug == (applyBlogUpdate b r now).slug && !(p._id == i))
        then .error duplicateBlogSlugErr
        else .ok { st with blogs := st.blogs.map fun p =>
          if p._id == i then applyBlogUpdate b r now else p }) := by
    simp [updateBlog, hv, hb, hcat, htag]
  have hslugOf : ∀ t, r.title = some t → t ≠ "" →
      (applyBlogUpdate b r now).slug = slugify t := by
    intro t htt hne
    show (updStatus r now (updMetadata r (updTags r (updCategories r
        (updExcerpt r (updTitle r b)))))).slug = slugify t
    simp [updTitle, htt, hne]
  refine ⟨?_, hslugOf, ?_, ?_⟩
  · intro h
    have ht : updTitle r b = b := by simp [updTitle, h]
    have hjt : jsTruthy r.title = false := by rw [h]; rfl
    refine ⟨?_, ?_, ?_⟩
    · show (updStatus r now (updMetadata r (updTags r (updCategories r
          (updExcerpt r (updTitle r b)))))).title = b.title
      simp [ht]
    · show (updStatus r now (updMetadata r (updTags r (updCategories r
          (updExcerpt r (updTitle r b)))))).slug = b.slug
      simp [ht]
    · rw [hstep, hjt]
      simp
  · intro t htt hne hex
    have hjt : jsTruthy r.title = true := by rw [htt]; simp [jsTruthy, hne]
    obtain ⟨p, hp, hpne, hps⟩ := hex
    have hany : st.blogs.any (fun p =>
        p.slug == (applyBlogUpdate b r now).slug && !(p._id == i)) = true := by
      rw [List.any_eq_true]
      exact ⟨p, hp, by simp [hslugOf t htt hne, hps, hpne]⟩
    rw [hstep, hjt, hany]
    simp
  · intro t htt hne hself
    have hany : st.blogs.any (fun p =>
        p.slug == (applyBlogUpdate b r now).slug && !(p._id == i)) = false := by
      rw [Bool.eq_false_iff]
      intro hcontra
      rw [List.any_eq_true] at hcontra
      obtain ⟨p, hp, hcond⟩ := hcontra
      rw [hslugOf t htt hne] at hcond
      simp only [Bool.and_eq_true, beq_iff_eq, Bool.not_eq_true', beq_eq_false_iff_ne] at hcond
      exact hcond.2 (hself p hp hcond.1)
    rw [hstep, hany]
    simp

/-- Witness for C6: renaming the `world` post to `Hello` collides with the
other post's slug `hello` and is rejected. -/
theorem c6_title_slug_witness :
    updateBlog c6Store oidB
      { title := some "Hello", excerpt := none, categories := none, tags := none
        metadata := none, status := none, publishedAt := none }
      "n" = .error duplicateBlogSlugErr :=
  (c6_title_slug c6Store oidB "n"
      { title := some "Hello", excerpt := none, categories := none, tags := none
        metadata := none, status := none, publishedAt := none }
      (samplePost oidB "world" Status.draft)
      (by decide) (by decide) rfl rfl).2.2.1 "Hello" rfl (by decide)
    ⟨samplePost oidA "hello" Status.draft, by decide, by decide⟩

end CoreBlock

namespace CoreBlock

/-- C3: blog-post creation (given a fresh slug and a well-formed request)
fails with `DanglingReference` whenever the count of stored entities
matching the supplied category-id (resp. tag-id) list differs from the
list's length — in particular any list holding a duplicate id (in a store
with unique ids) is rejected — and on such a failure the store is left
unchanged; when both counts match, the post is persisted. -/
theorem c3_create_dangling (st : Store) (req : CreateBlogReq) (mid uid now : String)
    (hv : validBlogReq req = true)
    (hslug : st.blogs.find? (fun b => b.slug == slugify req.title) = none) :
    (∀ cs, req.categories = some cs → countCategoriesIn st cs ≠ cs.length →
        createBlog st req mid uid now = .error danglingCategoriesErr ∧
        runCreateBlog st req mid uid now = st) ∧
    (∀ ts, req.tags = some ts →
      createCategoriesCheckFails st req.categories = false →
      countTagsIn st ts ≠ ts.length →
        createBlog st req mid uid now = .error danglingTagsErr ∧
        runCreateBlog st req mid uid now = st) ∧
    ((st.categories.map Category._id).Nodup →
      ∀ cs, req.categories = some cs → ¬ cs.Nodup →
        createBlog st req mid uid now = .error danglingCategoriesErr) ∧
    (createCategoriesCheckFails st req.categories = false →
      createTagsCheckFails st req.tags = false →
        createBlog st req mid uid now =
          .ok { st with blogs := st.blogs ++ [mkBlogPost req mid uid now] }) := by
  have hbase : createBlog st req mid uid now =
      (if createCategoriesCheckFails st req.categories
        then .error danglingCategoriesErr
        else if createTagsCheckFails st req.tags
          then .error danglingTagsErr
          else .ok { st with blogs := st.blogs ++ [mkBlogPost req mid uid now] }) := by
    simp [createBlog, hv, hslug]
  have part1 : ∀ cs, req.categories = some cs → countCategoriesIn st cs ≠ cs.length →
      createBlog st req mid uid now = .error danglingCategoriesErr := by
    intro cs hcs hcount
    have hne : cs ≠ [] := by
      rintro rfl
      exact hcount (by simp [countCategoriesIn])
    have hfail : createCategoriesCheckFails st req.categories = true := by
      rw [hcs]
      simp [createCategoriesCheckFails, List.length_eq_zero, hne, hcount]
    rw [hbase, hfail]
    simp
  refine ⟨?_, ?_, ?_, ?_⟩
  · intro cs hcs hcount
    refine ⟨part1 cs hcs hcount, ?_⟩
    simp [runCreateBlog, part1 cs hcs hcount]
  · intro ts hts hcat hcount
    have hne : ts ≠ [] := by
      rintro rfl
      exact hcount (by simp [countTagsIn])
    have hfail : createTagsCheckFails st req.tags = true := by
      rw [hts]
      simp [createTagsCheckFails, List.length_eq_zero, hne, hcount]
    have herr : createBlog st req mid uid now = .error danglingTagsErr := by
      rw [hbase, hcat, hfail]
      simp
    exact ⟨herr, by simp [runCreateBlog, herr]⟩
  · intro hnodup cs hcs hnd
    apply part1 cs hcs
    have hlt : countCategoriesIn st cs < cs.length := by
      have hsubl : List.Sublist
          ((st.categories.filter fun c => cs.contains c._id).map Category._id)
          (st.categories.map Category._id) :=
        (List.filter_sublist st.categories).map Category._id
      have hnd2 : ((st.categories.filter fun c => cs.contains c._id).map Category._id).Nodup :=
        hsubl.nodup hnodup
      have hsubset : ((st.categories.filter fun c => cs.contains c._id).map Category._id)
          ⊆ cs.dedup := by
        intro x hx
        obtain ⟨c, hcmem, rfl⟩ := List.mem_map.1 hx
        have hcf := List.of_mem_filter hcmem
        rw [List.mem_dedup]
        simpa using hcf
      have hle : ((st.categories.filter fun c => cs.contains c._id).map Category._id).length
          ≤ cs.dedup.length := (hnd2.subperm hsubset).length_le
      have hdlt : cs.dedup.length < cs.length := by
        rcases Nat.lt_or_ge cs.dedup.length cs.length with h | h
        · exact h
        · exfalso
          have hdle := (List.dedup_sublist cs).length_le
          have heq : cs.dedup = cs :=
            (List.dedup_sublist cs).eq_of_length (le_antisymm hdle h)
          exact hnd (heq ▸ List.nodup_dedup cs)
      calc countCategoriesIn st cs
          = ((st.categories.filter fun c => cs.contains c._id).map Category._id).length := by
            rw [countCategoriesIn, List.length_map]
        _ ≤ cs.dedup.length := hle
        _ < cs.length := hdlt
    exact Nat.ne_of_lt hlt
  · intro hcat htagf
    rw [hbase, hcat, htagf]
    simp

/-- Witness for C3: creating a post that references the absent category
`oidB` fails with the dangling-categories error and leaves the store as it
was. -/
theorem c3_create_dangling_witness :
    createBlog c3Store c3Req "m" "u" "n" = .error danglingCategoriesErr ∧
    runCreateBlog c3Store c3Req "m" "u" "n" = c3Store :=
  (c3_create_dangling c3Store c3Req "m" "u" "n" (by decide) (by decide)).1
    [oidB] rfl (by decide)

end CoreBlock
